import Mathlib

/-!
Shallow embedding of the saleor webhook payload-generation layer
(`saleor/webhook/payloads.py`) and of the `App` GraphQL resolvers
(`saleor/graphql/app/types.py`).

JSON documents are modelled by the inductive `JValue`; a serialized object is
an association list of string keys and `JValue`s with Python-dict update
semantics (`dictInsert`, `dictUpdate`).  Monetary amounts are modelled as
rationals.  Ambient state read by the Python code (the current timestamp, the
package version, the warehouse table, the shop's default country) is passed
explicitly through an `Env` record.  Code that can raise returns
`Except String`.

Helpers that `payloads.py` imports from elsewhere in the repository
(`quantize_price`, `from_payment_app_id`, `get_order_country`,
`is_owner_or_has_one_of_perms`) are not part of this excerpt; they are
modelled from the spec and carry a doc comment saying so.
-/

namespace Saleor

/-- A JSON value, as produced by the payload serializers. -/
inductive JValue where
  | null
  | s (v : String)
  | n (v : ℚ)
  | b (v : Bool)
  | arr (vs : List JValue)
  | obj (fs : List (String × JValue))

/-- A serialized JSON object: an association list of fields. -/
abbrev JObj := List (String × JValue)

/-- First-binding lookup in a serialized object (Python dict access). -/
def jlookup (k : String) : JObj → Option JValue
  | [] => none
  | (k2, v) :: rest => if k2 = k then some v else jlookup k rest

/-- Python `d[k] = v`: replace the value of the first binding of `k`, keeping
its position, or append a new binding when `k` is absent. -/
def dictInsert (k : String) (v : JValue) : JObj → JObj
  | [] => [(k, v)]
  | (k2, v2) :: rest =>
    if k2 = k then (k2, v) :: rest else (k2, v2) :: dictInsert k v rest

/-- Python `d.update(kvs)`: insert each binding in order. -/
def dictUpdate (d : JObj) (kvs : JObj) : JObj :=
  kvs.foldl (fun acc kv => dictInsert kv.1 kv.2 acc) d

/-- `none ↦ null`, `some x ↦ str x` (nullable text/date columns). -/
def optStr : Option String → JValue
  | none => JValue.null
  | some x => JValue.s x

/-- `none ↦ null`, `some q ↦ num q` (nullable decimal columns). -/
def optNum : Option ℚ → JValue
  | none => JValue.null
  | some q => JValue.n q

/-- `none ↦ null`, `some o ↦ obj o` (nullable related objects). -/
def optObj : Option JObj → JValue
  | none => JValue.null
  | some o => JValue.obj o

/-! ## Quantization and string helpers -/

/-- Modelled from the spec: the currency's standard minor-unit precision
(the currency-fraction table behind `quantize_price`, which lives in
`saleor.core.prices`, outside this excerpt). -/
def currency_fraction (currency : String) : Nat :=
  if currency = "JPY" ∨ currency = "KRW" ∨ currency = "VND" then 0
  else if currency = "BHD" ∨ currency = "KWD" then 3
  else 2

/-- Round to the nearest integer, halves up. -/
def roundHalfUp (q : ℚ) : ℤ := ⌊q + 1 / 2⌋

/-- Modelled from the spec: "Quantization: rounding a monetary amount to its
currency's standard minor-unit precision" — `quantize_price` from
`saleor.core.prices`, imported by `payloads.py` but not part of this
excerpt. -/
def quantize_price (amount : ℚ) (currency : String) : ℚ :=
  (roundHalfUp (amount * (10 : ℚ) ^ currency_fraction currency) : ℚ) /
    (10 : ℚ) ^ currency_fraction currency

/-- Modelled from the spec: the price quantizer applied in place to a set of
monetary fields of one row (`quantize_price_fields`), here specialised to a
single nullable amount. -/
def quantizeOpt (amount : Option ℚ) (currency : String) : Option ℚ :=
  amount.map (fun a => quantize_price a currency)

/-- Python `str.capitalize`: first character upper-cased, the rest
lower-cased. -/
def pyCapitalize (s : String) : String :=
  match s.data with
  | [] => ""
  | c :: cs => String.mk (c.toUpper :: cs.map Char.toLower)

/-- `graphene.utils.str_converters.to_camel_case`: split on underscores, keep
the first component, capitalize the non-empty remaining components and turn
empty components back into underscores. -/
def to_camel_case (snake_str : String) : String :=
  match snake_str.splitOn "_" with
  | [] => snake_str
  | c0 :: rest =>
    c0 ++ String.join (rest.map (fun x => if x = "" then "_" else pyCapitalize x))

/-- `graphene.Node.to_global_id`: an injective encoding of a type name and an
object id (the library's base64 wrapping is kept as plain text here). -/
def to_global_id (type_name : String) (id : String) : String :=
  type_name ++ ":" ++ id

/-! ## Ambient state -/

/-- The eleven entries of `ADDRESS_FIELDS`. -/
structure Address where
  first_name : String
  last_name : String
  company_name : String
  street_address_1 : String
  street_address_2 : String
  city : String
  city_area : String
  postal_code : String
  country : String
  country_area : String
  phone : String

/-- Projection of an address through `ADDRESS_FIELDS`. -/
def addressObj (a : Address) : JObj :=
  [("first_name", JValue.s a.first_name), ("last_name", JValue.s a.last_name),
   ("company_name", JValue.s a.company_name),
   ("street_address_1", JValue.s a.street_address_1),
   ("street_address_2", JValue.s a.street_address_2),
   ("city", JValue.s a.city), ("city_area", JValue.s a.city_area),
   ("postal_code", JValue.s a.postal_code), ("country", JValue.s a.country),
   ("country_area", JValue.s a.country_area), ("phone", JValue.s a.phone)]

/-- A warehouse row; `country` is the country its shipping zones cover, used
by the `Warehouse.objects.for_country` lookup. -/
structure Warehouse where
  name : String
  email : String
  click_and_collect_option : String
  is_private : Bool
  country : String
  address : Address

/-- Ambient state read by the payload generators: the clock, the package
version, and the warehouse table queried by `Warehouse.objects.for_country`
with the shop's default country. -/
structure Env where
  now : String
  version : String
  default_country : String
  warehouses : List Warehouse

/-- `Warehouse.objects.for_country(country).first()`. -/
def for_country_first (env : Env) (country : String) : Option Warehouse :=
  (env.warehouses.filter (fun w => w.country == country)).head?

/-! ## Requestor and meta envelope -/

/-- The possible requestors: an authenticated `User` (with its primary key),
Django's `AnonymousUser` (whose `id` is `None` but which is truthy), or an
app. -/
inductive Requestor where
  | user (id : Nat)
  | anonymous
  | app (name : String)

/-- Python `str` of a nullable primary key. -/
def pyStrOptNat : Option Nat → String
  | none => "None"
  | some i => toString i

/-- `generate_requestor`: `None` is falsy and yields the null marker;
`User`/`AnonymousUser` instances are truthy and yield type `"user"` with the
global `User` id built from their `id` attribute; anything else yields type
`"app"` with its `name`. -/
def generate_requestor : Option Requestor → JObj
  | none => [("id", JValue.null), ("type", JValue.null)]
  | some (Requestor.user i) =>
      [("id", JValue.s (to_global_id "User" (pyStrOptNat (some i)))),
       ("type", JValue.s "user")]
  | some Requestor.anonymous =>
      [("id", JValue.s (to_global_id "User" (pyStrOptNat none))),
       ("type", JValue.s "user")]
  | some (Requestor.app n) => [("id", JValue.s n), ("type", JValue.s "app")]

/-- `generate_meta`: the `{issued_at, version, issuing_principal}` dict,
updated with the extra keyword arguments, then (when `camel_case` is set)
rebuilt with camel-cased keys. -/
def generate_meta (env : Env) (requestor_data : JValue) (camel_case : Bool)
    (kwargs : JObj) : JObj :=
  let meta_result := dictUpdate
    [("issued_at", JValue.s env.now), ("version", JValue.s env.version),
     ("issuing_principal", requestor_data)] kwargs
  if camel_case then
    meta_result.foldl (fun meta kv => dictInsert (to_camel_case kv.1) kv.2 meta) []
  else
    meta_result

/-- The meta envelope as attached by every payload builder:
`generate_meta(requestor_data=generate_requestor(requestor))`. -/
def metaEnvelope (env : Env) (requestor : Option Requestor) : JObj :=
  generate_meta env (JValue.obj (generate_requestor requestor)) false []

/-! ## Shipping methods -/

structure ShippingMethodChannelListing where
  channel : String
  currency : String
  price_amount : ℚ

structure ShippingMethod where
  name : String
  type : String
  channel_listings : List ShippingMethodChannelListing

/-- `_generate_shipping_method_payload`: `None` for a missing shipping
method; otherwise the first channel listing for the channel is dereferenced
with no null guard, so a missing listing raises. The `price_amount` is
quantized. -/
def _generate_shipping_method_payload (shipping_method : Option ShippingMethod)
    (channel : String) : Except String (Option JObj) :=
  match shipping_method with
  | none => Except.ok none
  | some m =>
    match (m.channel_listings.filter (fun l => l.channel == channel)).head? with
    | none => Except.error "AttributeError: NoneType has no attribute currency"
    | some listing => Except.ok (some
        [("name", JValue.s m.name), ("type", JValue.s m.type),
         ("currency", JValue.s listing.currency),
         ("price_amount",
          JValue.n (quantize_price listing.price_amount listing.currency))])

/-- `ShippingMethodData` from `saleor.shipping.interface` (a dataclass with a
`Money` price). -/
structure ShippingMethodData where
  graphql_id : String
  price_amount : ℚ
  price_currency : String
  name : String
  maximum_order_weight : Option ℚ
  minimum_order_weight : Option ℚ
  maximum_delivery_days : Option Int
  minimum_delivery_days : Option Int

/-- `_generate_payload_for_shipping_method`: a plain dict of the method's
attributes; `method.price.amount` is written as-is. -/
def _generate_payload_for_shipping_method (method : ShippingMethodData) : JObj :=
  [("id", JValue.s method.graphql_id),
   ("price", JValue.n method.price_amount),
   ("currency", JValue.s method.price_currency),
   ("name", JValue.s method.name),
   ("maximum_order_weight", optNum method.maximum_order_weight),
   ("minimum_order_weight", optNum method.minimum_order_weight),
   ("maximum_delivery_days",
    match method.maximum_delivery_days with
    | none => JValue.null
    | some d => JValue.n (d : ℚ)),
   ("minimum_delivery_days",
    match method.minimum_delivery_days with
    | none => JValue.null
    | some d => JValue.n (d : ℚ))]

/-- `_generate_collection_point_payload` (fields plus the address). -/
def _generate_collection_point_payload (warehouse : Warehouse) : JObj :=
  [("name", JValue.s warehouse.name), ("email", JValue.s warehouse.email),
   ("click_and_collect_option", JValue.s warehouse.click_and_collect_option),
   ("is_private", JValue.b warehouse.is_private),
   ("address", JValue.obj (addressObj warehouse.address))]

/-! ## Checkout -/

structure UserModel where
  email : String
  first_name : String
  last_name : String

structure Channel where
  slug : String
  currency_code : String

def channelObj (c : Channel) : JObj :=
  [("slug", JValue.s c.slug), ("currency_code", JValue.s c.currency_code)]

/-- A checkout row, trimmed to the attributes `generate_checkout_payload`
reads.  `lines_data` stands for the output of `serialize_checkout_lines`
(defined in `saleor.webhook.serializers`, outside this excerpt), taken as
given data.  The `"status"` entry of `checkout_fields` names no model column
and is silently skipped by the Django serializer, so it has no counterpart
here. -/
structure Checkout where
  token : String
  last_change : String
  email : String
  quantity : Nat
  currency : String
  discount_amount : ℚ
  discount_name : Option String
  language_code : String
  channel : Channel
  user : Option UserModel
  billing_address : Option Address
  shipping_address : Option Address
  shipping_method : Option ShippingMethod
  collection_point : Option Warehouse
  lines_data : List JValue
  created_at : String

/-- `generate_checkout_payload`: quantizes `discount_amount`, looks up a
warehouse for the shipping address's country (guarded: a missing warehouse
degrades to a null `warehouse_address`), and nulls the `shipping_method` and
`collection_point` fields when those relations are absent. -/
def generate_checkout_payload (env : Env) (checkout : Checkout)
    (requestor : Option Requestor) : Except String JObj := do
  let warehouse : Option Warehouse :=
    match checkout.shipping_address with
    | some addr => for_country_first env addr.country
    | none => none
  let shipping_method_data ←
    _generate_shipping_method_payload checkout.shipping_method checkout.channel.slug
  Except.ok
    [("token", JValue.s checkout.token),
     ("last_change", JValue.s checkout.last_change),
     ("email", JValue.s checkout.email),
     ("quantity", JValue.n (checkout.quantity : ℚ)),
     ("currency", JValue.s checkout.currency),
     ("discount_amount",
      JValue.n (quantize_price checkout.discount_amount checkout.currency)),
     ("discount_name", optStr checkout.discount_name),
     ("language_code", JValue.s checkout.language_code),
     ("channel", JValue.obj (channelObj checkout.channel)),
     ("user",
      match checkout.user with
      | none => JValue.null
      | some u => JValue.obj
          [("email", JValue.s u.email), ("first_name", JValue.s u.first_name),
           ("last_name", JValue.s u.last_name)]),
     ("billing_address",
      match checkout.billing_address with
      | none => JValue.null
      | some a => JValue.obj (addressObj a)),
     ("shipping_address",
      match checkout.shipping_address with
      | none => JValue.null
      | some a => JValue.obj (addressObj a)),
     ("warehouse_address",
      match warehouse with
      | none => JValue.null
      | some w => JValue.obj (addressObj w.address)),
     ("shipping_method", optObj shipping_method_data),
     ("lines", JValue.arr checkout.lines_data),
     ("collection_point",
      match checkout.collection_point with
      | none => JValue.null
      | some w => JValue.obj (_generate_collection_point_payload w)),
     ("meta", JValue.obj (metaEnvelope env requestor)),
     ("created", JValue.s checkout.created_at)]

/-! ## Order and fulfillment -/

/-- An order row, trimmed to the attributes the embedded payload builders
read.  The related collections (lines, fulfillments, payments, discounts) are
not modelled: no claim inspects them. -/
structure Order where
  id : Nat
  status : String
  origin : String
  shipping_method_name : Option String
  collection_point_name : Option String
  currency : String
  user_email : String
  shipping_price_net_amount : ℚ
  shipping_price_gross_amount : ℚ
  total_net_amount : ℚ
  total_gross_amount : ℚ
  channel : Channel
  shipping_address : Option Address
  billing_address : Option Address
  shipping_method : Option ShippingMethod
  collection_point : Option Warehouse
  created_at : String

/-- Modelled from the spec: `get_order_country` from `saleor.order.utils`
(imported but not part of this excerpt) — the country the order ships to:
the shipping address's country, or the shop's default country when the order
has no shipping address. -/
def get_order_country (env : Env) (order : Order) : String :=
  match order.shipping_address with
  | some addr => addr.country
  | none => env.default_country

/-- `generate_order_payload`, trimmed to the fields the claims inspect:
quantizes the `ORDER_PRICE_FIELDS`, nulls `collection_point` and
`shipping_method` when absent, and attaches the meta envelope only when
`with_meta` is set. -/
def generate_order_payload (env : Env) (order : Order)
    (requestor : Option Requestor) (with_meta : Bool) : Except String JObj := do
  let shipping_method_data ←
    _generate_shipping_method_payload order.shipping_method order.channel.slug
  let base : JObj :=
    [("id", JValue.s (to_global_id "Order" (toString order.id))),
     ("token", JValue.s (toString order.id)),
     ("status", JValue.s order.status),
     ("origin", JValue.s order.origin),
     ("shipping_method_name", optStr order.shipping_method_name),
     ("collection_point_name", optStr order.collection_point_name),
     ("user_email", JValue.s order.user_email),
     ("created", JValue.s order.created_at),
     ("shipping_price_net_amount",
      JValue.n (quantize_price order.shipping_price_net_amount order.currency)),
     ("shipping_price_gross_amount",
      JValue.n (quantize_price order.shipping_price_gross_amount order.currency)),
     ("total_net_amount",
      JValue.n (quantize_price order.total_net_amount order.currency)),
     ("total_gross_amount",
      JValue.n (quantize_price order.total_gross_amount order.currency)),
     ("channel", JValue.obj (channelObj order.channel)),
     ("shipping_address",
      match order.shipping_address with
      | none => JValue.null
      | some a => JValue.obj (addressObj a)),
     ("billing_address",
      match order.billing_address with
      | none => JValue.null
      | some a => JValue.obj (addressObj a)),
     ("collection_point",
      match order.collection_point with
      | none => JValue.null
      | some w => JValue.obj (_generate_collection_point_payload w)),
     ("shipping_method", optObj shipping_method_data)]
  if with_meta then
    Except.ok (base ++ [("meta", JValue.obj (metaEnvelope env requestor))])
  else
    Except.ok base

/-- A stock row. -/
structure Stock where
  warehouse : Warehouse
  quantity : Int

/-- A fulfillment line: its stock relation is nullable. -/
structure FulfillmentLine where
  stock : Option Stock
  quantity : Nat

structure Fulfillment where
  order : Order
  status : String
  tracking_code : String
  shipping_refund_amount : Option ℚ
  total_refund_amount : Option ℚ
  lines : List FulfillmentLine

/-- `generate_fulfillment_lines_payload`, trimmed to the fields the claims
inspect: the quantity and the null-guarded `warehouse_id`. -/
def generate_fulfillment_lines_payload (fulfillment : Fulfillment) : List JValue :=
  fulfillment.lines.map fun fl =>
    JValue.obj
      [("quantity", JValue.n (fl.quantity : ℚ)),
       ("warehouse_id",
        match fl.stock with
        | none => JValue.null
        | some st => JValue.s (to_global_id "Warehouse" st.warehouse.name))]

/-- `generate_fulfillment_payload`: picks the warehouse from the first line's
stock, falling back to `Warehouse.objects.for_country(order_country).first()`;
the `warehouse_address` additional field then evaluates `warehouse.address`
with no null guard, so a missing warehouse raises `AttributeError`. -/
def generate_fulfillment_payload (env : Env) (fulfillment : Fulfillment)
    (requestor : Option Requestor) : Except String JObj := do
  let order := fulfillment.order
  let order_country := get_order_country env order
  let warehouse : Option Warehouse :=
    match fulfillment.lines.head? with
    | some fl =>
      match fl.stock with
      | some st => some st.warehouse
      | none => for_country_first env order_country
    | none => for_country_first env order_country
  match warehouse with
  | none => Except.error "AttributeError: NoneType object has no attribute address"
  | some w => do
    let order_data ← generate_order_payload env order none false
    Except.ok
      [("status", JValue.s fulfillment.status),
       ("tracking_code", JValue.s fulfillment.tracking_code),
       ("order__user_email", JValue.s order.user_email),
       ("shipping_refund_amount",
        optNum (quantizeOpt fulfillment.shipping_refund_amount order.currency)),
       ("total_refund_amount",
        optNum (quantizeOpt fulfillment.total_refund_amount order.currency)),
       ("warehouse_address", JValue.obj (addressObj w.address)),
       ("order", JValue.obj order_data),
       ("lines", JValue.arr (generate_fulfillment_lines_payload fulfillment)),
       ("meta", JValue.obj (metaEnvelope env requestor))]

/-! ## Page -/

structure Page where
  title : String
  content : String
  published_at : Option String
  is_published : Bool
  updated_at : String

/-- `generate_page_payload`: the page fields plus two extra entries — the
meta envelope is placed under the key `"data"`, and the deprecated
`"publication_date"` repeats `published_at`. -/
def generate_page_payload (env : Env) (page : Page)
    (requestor : Option Requestor) : JObj :=
  [("title", JValue.s page.title),
   ("content", JValue.s page.content),
   ("published_at", optStr page.published_at),
   ("is_published", JValue.b page.is_published),
   ("updated_at", JValue.s page.updated_at),
   ("data", JValue.obj (metaEnvelope env requestor)),
   ("publication_date", optStr page.published_at)]

/-! ## Payment -/

/-- `PaymentData` from `saleor.payment.interface`, trimmed to representative
dataclass fields. -/
structure PaymentData where
  gateway : String
  amount : ℚ
  currency : String
  payment_id : Nat
  customer_email : String

/-- Modelled from the spec: `from_payment_app_id` from
`saleor.plugins.webhook.utils` (imported but not part of this excerpt) —
parses a gateway id of the shape `app:<pk>:<name>` into the payment app's
primary key and name, and fails on any other shape. -/
def from_payment_app_id (gateway : String) : Option (Nat × String) :=
  match gateway.splitOn ":" with
  | [p, pk, name] =>
    if p = "app" then (pk.toNat?).map (fun k => (k, name)) else none
  | _ => none

/-- `generate_payment_payload`: `asdict` of the dataclass, with `amount`
re-assigned to its quantized value; `payment_method` and `meta` are added
only when the gateway id parses as a payment-app id. -/
def generate_payment_payload (env : Env) (payment_data : PaymentData)
    (requestor : Option Requestor) : JObj :=
  let data : JObj :=
    [("gateway", JValue.s payment_data.gateway),
     ("amount", JValue.n payment_data.amount),
     ("currency", JValue.s payment_data.currency),
     ("payment_id", JValue.n (payment_data.payment_id : ℚ)),
     ("customer_email", JValue.s payment_data.customer_email)]
  let data := dictInsert "amount"
    (JValue.n (quantize_price payment_data.amount payment_data.currency)) data
  match from_payment_app_id payment_data.gateway with
  | none => data
  | some payment_app_data =>
    let data := dictInsert "payment_method" (JValue.s payment_app_data.2) data
    dictInsert "meta" (JValue.obj (metaEnvelope env requestor)) data

/-! ## List gateways, excluded shipping methods, sample-payload helper -/

/-- `generate_list_gateways_payload`: `{checkout, currency}` with a null
checkout when none is given; no meta envelope of its own. -/
def generate_list_gateways_payload (env : Env) (currency : Option String)
    (checkout : Option Checkout) : Except String JObj := do
  match checkout with
  | some c => do
    let checkout_data ← generate_checkout_payload env c none
    Except.ok [("checkout", JValue.obj checkout_data), ("currency", optStr currency)]
  | none => Except.ok [("checkout", JValue.null), ("currency", optStr currency)]

/-- `generate_excluded_shipping_methods_for_order_payload`:
`{order, shipping_methods}`; no meta envelope of its own (the order payload
inside carries one). -/
def generate_excluded_shipping_methods_for_order_payload (env : Env)
    (order : Order) (available_shipping_methods : List ShippingMethodData) :
    Except String JObj := do
  let order_data ← generate_order_payload env order none true
  Except.ok
    [("order", JValue.obj order_data),
     ("shipping_methods", JValue.arr (available_shipping_methods.map
        (fun m => JValue.obj (_generate_payload_for_shipping_method m))))]

/-- `generate_excluded_shipping_methods_for_checkout_payload`:
`{checkout, shipping_methods}`; no meta envelope of its own. -/
def generate_excluded_shipping_methods_for_checkout_payload (env : Env)
    (checkout : Checkout) (available_shipping_methods : List ShippingMethodData) :
    Except String JObj := do
  let checkout_data ← generate_checkout_payload env checkout none
  Except.ok
    [("checkout", JValue.obj checkout_data),
     ("shipping_methods", JValue.arr (available_shipping_methods.map
        (fun m => JValue.obj (_generate_payload_for_shipping_method m))))]

/-- `str(uuid.UUID(int=1))`. -/
def uuid_int_1 : String := "00000000-0000-0000-0000-000000000001"

/-- `_remove_token_from_checkout`: deserializes the checkout payload (a JSON
array) and re-assigns the `"token"` entry of its first element; an empty
array would raise `IndexError`. -/
def _remove_token_from_checkout (checkout_data : List JObj) :
    Except String (List JObj) :=
  match checkout_data with
  | [] => Except.error "IndexError: list index out of range"
  | first :: rest =>
    Except.ok (dictInsert "token" (JValue.s uuid_int_1) first :: rest)

/-! ## Sale -/

/-- A sale catalogue: a `defaultdict(set)` from kind (`"categories"`,
`"collections"`, `"products"`, `"variants"`) to a set of ids — total, with
the empty set as the default. -/
abbrev Catalogue := String → Finset String

def _calculate_added (previous_catalogue current_catalogue : Catalogue)
    (key : String) : Finset String :=
  current_catalogue key \ previous_catalogue key

def _calculate_removed (previous_catalogue current_catalogue : Catalogue)
    (key : String) : Finset String :=
  _calculate_added current_catalogue previous_catalogue key

/-- The sale payload, at the level of its added/removed id sets (the JSON
layer turns each set into a list). -/
structure SalePayload where
  id : Nat
  meta : JObj
  categories_added : Finset String
  categories_removed : Finset String
  collections_added : Finset String
  collections_removed : Finset String
  products_added : Finset String
  products_removed : Finset String
  variants_added : Finset String
  variants_removed : Finset String

/-- `generate_sale_payload`: omitted catalogues default to `defaultdict(set)`
and each `<kind>_added`/`<kind>_removed` entry is computed by
`_calculate_added`/`_calculate_removed` on the pair of catalogues. -/
def generate_sale_payload (env : Env) (sale_id : Nat)
    (previous_catalogue current_catalogue : Option Catalogue)
    (requestor : Option Requestor) : SalePayload :=
  let p := previous_catalogue.getD (fun _ => ∅)
  let c := current_catalogue.getD (fun _ => ∅)
  { id := sale_id
    meta := metaEnvelope env requestor
    categories_added := _calculate_added p c "categories"
    categories_removed := _calculate_removed p c "categories"
    collections_added := _calculate_added p c "collections"
    collections_removed := _calculate_removed p c "collections"
    products_added := _calculate_added p c "products"
    products_removed := _calculate_removed p c "products"
    variants_added := _calculate_added p c "variants"
    variants_removed := _calculate_removed p c "variants" }

/-! ## Product channel listings and variant listings -/

structure ProductChannelListing where
  channel_slug : String
  published_at : Option String
  is_published : Bool
  visible_in_listings : Bool
  available_for_purchase_at : Option String

/-- `serialize_product_channel_listing_payload`: the four listing fields plus
the channel slug and the two deprecated shims `publication_date` and
`available_for_purchase`. -/
def serialize_product_channel_listing_payload
    (channel_listings : List ProductChannelListing) : List JObj :=
  channel_listings.map fun pch =>
    [("published_at", optStr pch.published_at),
     ("is_published", JValue.b pch.is_published),
     ("visible_in_listings", JValue.b pch.visible_in_listings),
     ("available_for_purchase_at", optStr pch.available_for_purchase_at),
     ("channel_slug", JValue.s pch.channel_slug),
     ("publication_date", optStr pch.published_at),
     ("available_for_purchase", optStr pch.available_for_purchase_at)]

structure ProductVariantChannelListing where
  channel_slug : String
  currency : String
  price_amount : ℚ
  cost_price_amount : Option ℚ

/-- `generate_product_variant_listings_payload`: the `currency`,
`price_amount` and `cost_price_amount` columns are copied as-is (no
quantization) plus the channel slug. -/
def generate_product_variant_listings_payload
    (variant_channel_listings : List ProductVariantChannelListing) : List JObj :=
  variant_channel_listings.map fun vch =>
    [("currency", JValue.s vch.currency),
     ("price_amount", JValue.n vch.price_amount),
     ("cost_price_amount", optNum vch.cost_price_amount),
     ("channel_slug", JValue.s vch.channel_slug)]

/-! ## Variant stock aggregate -/

/-- A product variant, trimmed to its stock rows. -/
structure ProductVariant where
  stocks : List Stock

/-- Django `aggregate(Sum("quantity"))["quantity__sum"]`: `None` when the
variant has no stock rows, otherwise the sum of the column. -/
def aggregate_sum_quantity (stocks : List Stock) : Option Int :=
  match stocks with
  | [] => none
  | _ => some ((stocks.map (fun st => st.quantity)).sum)

/-- Python `x or 0`. -/
def pyOrZero : Option Int → Int
  | none => 0
  | some v => if v = 0 then 0 else v

/-- `generate_product_variant_stocks_payload`. -/
def generate_product_variant_stocks_payload (product_variant : ProductVariant) : Int :=
  pyOrZero (aggregate_sum_quantity product_variant.stocks)

/-! ## App GraphQL resolvers (`saleor/graphql/app/types.py`) -/

def MANAGE_APPS : String := "MANAGE_APPS"
def OWNER : String := "OWNER"

/-- An `App` row, trimmed to its id and its `tokens`/`webhooks` relations. -/
structure AppModel where
  id : Nat
  tokens : List String
  webhooks : List String

/-- The requester extracted from the request context by
`get_user_or_app_from_context`: a user or an app, each with its granted
permissions. -/
inductive Requester where
  | userRequester (perms : List String)
  | appRequester (id : Nat) (perms : List String)

def Requester.perms : Requester → List String
  | Requester.userRequester ps => ps
  | Requester.appRequester _ ps => ps

def Requester.has_perm (r : Requester) (p : String) : Bool :=
  r.perms.contains p

/-- Modelled from the spec: "gated by owner-or-permission checks" —
`is_owner_or_has_one_of_perms` from `saleor.graphql.account.utils` (imported
but not part of this excerpt): the requester is the owner (it is the app
itself) or holds one of the listed permissions. -/
def is_owner_or_has_one_of_perms (requester : Requester) (app : AppModel)
    (perms : List String) : Bool :=
  (match requester with
   | Requester.appRequester i _ => i == app.id
   | Requester.userRequester _ => false) ||
  perms.any (fun p => requester.has_perm p)

/-- The `PermissionDenied` error, carrying the permission set it names. -/
structure PermissionDenied where
  permissions : List String
deriving DecidableEq

/-- `has_required_permission`: raises `PermissionDenied` naming
`[MANAGE_APPS, OWNER]` unless the requester is the app's owner or holds
`MANAGE_APPS`. -/
def has_required_permission (app : AppModel) (context : Requester) :
    Except PermissionDenied Unit :=
  if is_owner_or_has_one_of_perms context app [MANAGE_APPS] then Except.ok ()
  else Except.error ⟨[MANAGE_APPS, OWNER]⟩

/-- `App.resolve_tokens`. -/
def resolve_tokens (root : AppModel) (context : Requester) :
    Except PermissionDenied (List String) := do
  let _ ← has_required_permission root context
  Except.ok root.tokens

/-- `App.resolve_webhooks`. -/
def resolve_webhooks (root : AppModel) (context : Requester) :
    Except PermissionDenied (List String) := do
  let _ ← has_required_permission root context
  Except.ok root.webhooks

/-! ## Sample rows used by counterexamples and witnesses -/

def cAddress : Address :=
  ⟨"Jane", "Doe", "ACME", "1 Main St", "", "Springfield", "", "12345", "US",
   "", "555"⟩

def cEnv : Env := ⟨"2022-06-01T00:00:00+00:00", "3.4.0", "US", []⟩

def cChannel : Channel := ⟨"default-channel", "USD"⟩

def cVariantListing : ProductVariantChannelListing :=
  ⟨"default-channel", "USD", (201 : ℚ) / 200, none⟩

def cPage : Page :=
  ⟨"About", "Hello", some "2022-05-01T00:00:00+00:00", true,
   "2022-05-02T00:00:00+00:00"⟩

def cOrderBare : Order :=
  ⟨17, "unfulfilled", "checkout", none, none, "USD", "jane@example.com",
   0, 0, 10, 12, cChannel, none, none, none, none, "2022-05-01T00:00:00+00:00"⟩

def cFulfillmentNoStock : Fulfillment :=
  ⟨cOrderBare, "fulfilled", "TRACK-1", none, none, [⟨none, 1⟩]⟩

def cCheckoutBare : Checkout :=
  ⟨"tok-1", "2022-05-01", "jane@example.com", 1, "USD", 0, none, "en",
   cChannel, none, none, some cAddress, none, none, [],
   "2022-05-01T00:00:00+00:00"⟩

/-! ## Dictionary lemmas -/

theorem jlookup_dictInsert_self (k : String) (v : JValue) (d : JObj) :
    jlookup k (dictInsert k v d) = some v := by
  induction d with
  | nil => simp [dictInsert, jlookup]
  | cons kv rest ih =>
    obtain ⟨k2, v2⟩ := kv
    by_cases h : k2 = k <;> simp [dictInsert, jlookup, h, ih]

theorem jlookup_dictInsert_ne (k k2 : String) (h : k ≠ k2) (v : JValue)
    (d : JObj) : jlookup k2 (dictInsert k v d) = jlookup k2 d := by
  induction d with
  | nil => simp [dictInsert, jlookup, h]
  | cons kv rest ih =>
    obtain ⟨k3, v3⟩ := kv
    by_cases h3 : k3 = k
    · subst h3
      simp [dictInsert, jlookup, h, Ne.symm h]
    · by_cases h2 : k3 = k2 <;> simp [dictInsert, jlookup, h2, h3, ih, Ne.symm h]

theorem dictUpdate_cons (d : JObj) (kv : String × JValue) (kvs : JObj) :
    dictUpdate d (kv :: kvs) = dictUpdate (dictInsert kv.1 kv.2 d) kvs := rfl

theorem jlookup_dictUpdate_not_mem (k : String) (d kvs : JObj)
    (h : k ∉ kvs.map Prod.fst) :
    jlookup k (dictUpdate d kvs) = jlookup k d := by
  induction kvs generalizing d with
  | nil => rfl
  | cons kv rest ih =>
    obtain ⟨k1, v1⟩ := kv
    simp only [List.map_cons, List.mem_cons, not_or] at h
    rw [dictUpdate_cons, ih _ h.2, jlookup_dictInsert_ne _ _ (fun e => h.1 e.symm)]

theorem jlookup_dictUpdate_mem (k : String) (v : JValue) (d kvs : JObj)
    (hnd : (kvs.map Prod.fst).Nodup) (h : (k, v) ∈ kvs) :
    jlookup k (dictUpdate d kvs) = some v := by
  induction kvs generalizing d with
  | nil => simp at h
  | cons kv rest ih =>
    obtain ⟨k1, v1⟩ := kv
    simp only [List.map_cons, List.nodup_cons] at hnd
    rcases List.mem_cons.mp h with heq | hmem
    · obtain ⟨rfl, rfl⟩ := Prod.mk.injEq .. ▸ heq
      rw [dictUpdate_cons, jlookup_dictUpdate_not_mem _ _ _ hnd.1,
        jlookup_dictInsert_self]
    · exact dictUpdate_cons .. ▸ ih _ hnd.2 hmem

theorem mem_keys_dictInsert (x k : String) (v : JValue) (d : JObj)
    (h : x ∈ (dictInsert k v d).map Prod.fst) :
    x = k ∨ x ∈ d.map Prod.fst := by
  induction d with
  | nil => simpa [dictInsert] using h
  | cons kv rest ih =>
    obtain ⟨k2, v2⟩ := kv
    by_cases h2 : k2 = k
    · subst h2; simpa [dictInsert] using h
    · simp only [dictInsert, if_neg h2, List.map_cons, List.mem_cons] at h ⊢
      rcases h with h | h
      · exact Or.inr (Or.inl h)
      · rcases ih h with h | h
        · exact Or.inl h
        · exact Or.inr (Or.inr h)

theorem mem_keys_foldl_camel (x : String) (l acc : JObj)
    (h : x ∈ ((l.foldl
        (fun meta kv => dictInsert (to_camel_case kv.1) kv.2 meta) acc).map
        Prod.fst)) :
    x ∈ acc.map Prod.fst ∨ ∃ kv ∈ l, x = to_camel_case kv.1 := by
  induction l generalizing acc with
  | nil => exact Or.inl h
  | cons kv rest ih =>
    rcases ih (dictInsert (to_camel_case kv.1) kv.2 acc) h with hacc | ⟨kv2, hkv2, rfl⟩
    · rcases mem_keys_dictInsert _ _ _ _ hacc with rfl | hmem
      · exact Or.inr ⟨kv, List.mem_cons_self .., rfl⟩
      · exact Or.inl hmem
    · exact Or.inr ⟨kv2, List.mem_cons_of_mem _ hkv2, rfl⟩

/-! ## Claims -/

/-- C6: `generate_requestor` returns `{"id": None, "type": None}` for an
absent requestor, type `"user"` with the global `User` id (built from the
`id` attribute, which is `None` for `AnonymousUser`) for `User` and
`AnonymousUser`, and otherwise type `"app"` with the requestor's name as
id. -/
theorem C6_generate_requestor :
    generate_requestor none = [("id", JValue.null), ("type", JValue.null)] ∧
    (∀ i : Nat, generate_requestor (some (Requestor.user i)) =
      [("id", JValue.s (to_global_id "User" (toString i))),
       ("type", JValue.s "user")]) ∧
    (generate_requestor (some Requestor.anonymous) =
      [("id", JValue.s (to_global_id "User" "None")),
       ("type", JValue.s "user")]) ∧
    (∀ n : String, generate_requestor (some (Requestor.app n)) =
      [("id", JValue.s n), ("type", JValue.s "app")]) :=
  ⟨rfl, fun _ => rfl, rfl, fun _ => rfl⟩

/-- C7: in every serialized product channel listing the deprecated
`publication_date` equals `published_at` and the deprecated
`available_for_purchase` equals `available_for_purchase_at`; in every page
payload the deprecated `publication_date` equals the page's
`published_at`. -/
theorem C7_deprecated_shims :
    ∀ channel_listings : List ProductChannelListing,
      ((serialize_product_channel_listing_payload channel_listings).map
          (jlookup "publication_date") =
        channel_listings.map (fun pch => some (optStr pch.published_at))) ∧
      ((serialize_product_channel_listing_payload channel_listings).map
          (jlookup "available_for_purchase") =
        channel_listings.map
          (fun pch => some (optStr pch.available_for_purchase_at))) ∧
      (∀ (env : Env) (page : Page) (requestor : Option Requestor),
        jlookup "publication_date" (generate_page_payload env page requestor) =
          some (optStr page.published_at)) := by
  intro channel_listings
  refine ⟨?_, ?_, ?_⟩
  · simp [serialize_product_channel_listing_payload, jlookup]
  · simp [serialize_product_channel_listing_payload, jlookup]
  · intro env page requestor
    simp [generate_page_payload, jlookup]

/-- C9: on a payload whose first element is an object,
`_remove_token_from_checkout` re-assigns that element's `"token"` field to
the fixed UUID `00000000-0000-0000-0000-000000000001` and leaves every other
field of that element, and every other element, unchanged. -/
theorem C9_remove_token :
    ∀ (first : JObj) (rest : List JObj) (k : String), k ≠ "token" →
      _remove_token_from_checkout (first :: rest) =
        Except.ok (dictInsert "token" (JValue.s uuid_int_1) first :: rest) ∧
      jlookup "token" (dictInsert "token" (JValue.s uuid_int_1) first) =
        some (JValue.s uuid_int_1) ∧
      jlookup k (dictInsert "token" (JValue.s uuid_int_1) first) =
        jlookup k first := by
  intro first rest k hk
  exact ⟨rfl, jlookup_dictInsert_self .., jlookup_dictInsert_ne _ _ (Ne.symm hk) ..⟩

/-- Witness for C9 at a concrete two-field checkout object. -/
theorem C9_remove_token_witness :
    _remove_token_from_checkout
        [[("token", JValue.s "tok-1"), ("email", JValue.s "jane@example.com")]] =
      Except.ok
        [dictInsert "token" (JValue.s uuid_int_1)
          [("token", JValue.s "tok-1"), ("email", JValue.s "jane@example.com")]] ∧
    jlookup "token" (dictInsert "token" (JValue.s uuid_int_1)
        [("token", JValue.s "tok-1"), ("email", JValue.s "jane@example.com")]) =
      some (JValue.s uuid_int_1) ∧
    jlookup "email" (dictInsert "token" (JValue.s uuid_int_1)
        [("token", JValue.s "tok-1"), ("email", JValue.s "jane@example.com")]) =
      jlookup "email"
        [("token", JValue.s "tok-1"), ("email", JValue.s "jane@example.com")] :=
  C9_remove_token
    [("token", JValue.s "tok-1"), ("email", JValue.s "jane@example.com")] []
    "email" (by decide)

/-- C10: `generate_product_variant_stocks_payload` returns the sum of the
`quantity` column over the variant's stock rows, and `0` (not null) when the
variant has no stock rows. -/
theorem C10_variant_stocks :
    ∀ product_variant : ProductVariant,
      generate_product_variant_stocks_payload product_variant =
        (product_variant.stocks.map (fun st => st.quantity)).sum ∧
      generate_product_variant_stocks_payload ⟨[]⟩ = 0 := by
  intro product_variant
  refine ⟨?_, rfl⟩
  obtain ⟨stocks⟩ := product_variant
  cases stocks with
  | nil => rfl
  | cons st rest =>
    show pyOrZero (some _) = _
    simp only [pyOrZero]
    split <;> simp_all

/-- C8: in the sale payload each `<kind>_removed` set contains exactly the
ids in the previous catalogue's set for that kind and absent from the
current one (it is the `added` difference with the catalogues swapped), each
`<kind>_added` and `<kind>_removed` pair is disjoint, and when both
catalogues are omitted all eight sets are empty. -/
theorem C8_sale_catalogue_diff :
    ∀ (env : Env) (sale_id : Nat) (p c : Catalogue) (requestor : Option Requestor),
      (∀ key x, x ∈ _calculate_removed p c key ↔ x ∈ p key ∧ x ∉ c key) ∧
      (∀ key, _calculate_removed p c key = _calculate_added c p key) ∧
      ((generate_sale_payload env sale_id (some p) (some c) requestor).categories_removed
          = _calculate_removed p c "categories" ∧
       (generate_sale_payload env sale_id (some p) (some c) requestor).collections_removed
          = _calculate_removed p c "collections" ∧
       (generate_sale_payload env sale_id (some p) (some c) requestor).products_removed
          = _calculate_removed p c "products" ∧
       (generate_sale_payload env sale_id (some p) (some c) requestor).variants_removed
          = _calculate_removed p c "variants") ∧
      (Disjoint (generate_sale_payload env sale_id (some p) (some c) requestor).categories_added
        (generate_sale_payload env sale_id (some p) (some c) requestor).categories_removed ∧
       Disjoint (generate_sale_payload env sale_id (some p) (some c) requestor).collections_added
        (generate_sale_payload env sale_id (some p) (some c) requestor).collections_removed ∧
       Disjoint (generate_sale_payload env sale_id (some p) (some c) requestor).products_added
        (generate_sale_payload env sale_id (some p) (some c) requestor).products_removed ∧
       Disjoint (generate_sale_payload env sale_id (some p) (some c) requestor).variants_added
        (generate_sale_payload env sale_id (some p) (some c) requestor).variants_removed) ∧
      ((generate_sale_payload env sale_id none none requestor).categories_added = ∅ ∧
       (generate_sale_payload env sale_id none none requestor).categories_removed = ∅ ∧
       (generate_sale_payload env sale_id none none requestor).collections_added = ∅ ∧
       (generate_sale_payload env sale_id none none requestor).collections_removed = ∅ ∧
       (generate_sale_payload env sale_id none none requestor).products_added = ∅ ∧
       (generate_sale_payload env sale_id none none requestor).products_removed = ∅ ∧
       (generate_sale_payload env sale_id none none requestor).variants_added = ∅ ∧
       (generate_sale_payload env sale_id none none requestor).variants_removed = ∅) := by
  intro env sale_id p c requestor
  refine ⟨?_, fun key => rfl, ⟨rfl, rfl, rfl, rfl⟩, ?_, ?_⟩
  · intro key x
    simp [_calculate_removed, _calculate_added, Finset.mem_sdiff]
  · exact ⟨disjoint_sdiff_sdiff, disjoint_sdiff_sdiff, disjoint_sdiff_sdiff,
      disjoint_sdiff_sdiff⟩
  · simp [generate_sale_payload, _calculate_added, _calculate_removed]

theorem resolve_tokens_eq (root : AppModel) (ctx : Requester) :
    resolve_tokens root ctx =
      if is_owner_or_has_one_of_perms ctx root [MANAGE_APPS] then
        Except.ok root.tokens
      else Except.error ⟨[MANAGE_APPS, OWNER]⟩ := by
  unfold resolve_tokens has_required_permission
  split <;> rfl

theorem resolve_webhooks_eq (root : AppModel) (ctx : Requester) :
    resolve_webhooks root ctx =
      if is_owner_or_has_one_of_perms ctx root [MANAGE_APPS] then
        Except.ok root.webhooks
      else Except.error ⟨[MANAGE_APPS, OWNER]⟩ := by
  unfold resolve_webhooks has_required_permission
  split <;> rfl

/-- C4: the `App.tokens` and `App.webhooks` resolvers raise
`PermissionDenied` naming `[MANAGE_APPS, OWNER]` exactly when the requester
is neither the app's owner nor a holder of `MANAGE_APPS`, and return the
app's tokens/webhooks exactly when the check passes. -/
theorem C4_resolver_permission :
    ∀ (a : AppModel) (ctx : Requester),
      (resolve_tokens a ctx = Except.error ⟨[MANAGE_APPS, OWNER]⟩ ↔
        is_owner_or_has_one_of_perms ctx a [MANAGE_APPS] = false) ∧
      (resolve_tokens a ctx = Except.ok a.tokens ↔
        is_owner_or_has_one_of_perms ctx a [MANAGE_APPS] = true) ∧
      (resolve_webhooks a ctx = Except.error ⟨[MANAGE_APPS, OWNER]⟩ ↔
        is_owner_or_has_one_of_perms ctx a [MANAGE_APPS] = false) ∧
      (resolve_webhooks a ctx = Except.ok a.webhooks ↔
        is_owner_or_has_one_of_perms ctx a [MANAGE_APPS] = true) := by
  intro a ctx
  cases h : is_owner_or_has_one_of_perms ctx a [MANAGE_APPS] <;>
    simp [resolve_tokens_eq, resolve_webhooks_eq, h]

/-- C5: `generate_meta` maps `issued_at` to the current timestamp, `version`
to the package version and `issuing_principal` to the given requestor data,
merged with the extra keyword arguments (Python kwargs have distinct keys
and override on collision); with `camel_case` set, every key of the result
is the camel-cased form of a key of the plain result. -/
theorem C5_generate_meta :
    ∀ (env : Env) (requestor_data : JValue) (kwargs : JObj),
      ("issued_at" ∉ kwargs.map Prod.fst →
        jlookup "issued_at" (generate_meta env requestor_data false kwargs) =
          some (JValue.s env.now)) ∧
      ("version" ∉ kwargs.map Prod.fst →
        jlookup "version" (generate_meta env requestor_data false kwargs) =
          some (JValue.s env.version)) ∧
      ("issuing_principal" ∉ kwargs.map Prod.fst →
        jlookup "issuing_principal"
            (generate_meta env requestor_data false kwargs) =
          some requestor_data) ∧
      ((kwargs.map Prod.fst).Nodup →
        ∀ k v, (k, v) ∈ kwargs →
          jlookup k (generate_meta env requestor_data false kwargs) = some v) ∧
      (∀ x, x ∈ (generate_meta env requestor_data true kwargs).map Prod.fst →
        ∃ k0 ∈ (generate_meta env requestor_data false kwargs).map Prod.fst,
          x = to_camel_case k0) := by
  intro env requestor_data kwargs
  have hbase : generate_meta env requestor_data false kwargs =
      dictUpdate
        [("issued_at", JValue.s env.now), ("version", JValue.s env.version),
         ("issuing_principal", requestor_data)] kwargs := rfl
  refine ⟨?_, ?_, ?_, ?_, ?_⟩
  · intro h
    rw [hbase, jlookup_dictUpdate_not_mem _ _ _ h]
    rfl
  · intro h
    rw [hbase, jlookup_dictUpdate_not_mem _ _ _ h]
    rfl
  · intro h
    rw [hbase, jlookup_dictUpdate_not_mem _ _ _ h]
    rfl
  · intro hnd k v hmem
    rw [hbase]
    exact jlookup_dictUpdate_mem _ _ _ _ hnd hmem
  · intro x hx
    rcases mem_keys_foldl_camel x _ [] hx with hacc | ⟨kv, hkv, rfl⟩
    · simp at hacc
    · exact ⟨kv.1, hbase ▸ List.mem_map_of_mem Prod.fst hkv, rfl⟩

/-- Witness for C5 at a concrete environment and a one-entry kwargs dict. -/
theorem C5_generate_meta_witness :
    jlookup "issued_at"
        (generate_meta cEnv JValue.null false [("extra", JValue.s "v")]) =
      some (JValue.s cEnv.now) ∧
    jlookup "version"
        (generate_meta cEnv JValue.null false [("extra", JValue.s "v")]) =
      some (JValue.s cEnv.version) ∧
    jlookup "issuing_principal"
        (generate_meta cEnv JValue.null false [("extra", JValue.s "v")]) =
      some JValue.null ∧
    jlookup "extra"
        (generate_meta cEnv JValue.null false [("extra", JValue.s "v")]) =
      some (JValue.s "v") :=
  ⟨(C5_generate_meta cEnv JValue.null [("extra", JValue.s "v")]).1 (by decide),
   (C5_generate_meta cEnv JValue.null [("extra", JValue.s "v")]).2.1 (by decide),
   (C5_generate_meta cEnv JValue.null [("extra", JValue.s "v")]).2.2.1 (by decide),
   (C5_generate_meta cEnv JValue.null [("extra", JValue.s "v")]).2.2.2.1
     (by simp) "extra" (JValue.s "v") (List.mem_cons_self ..)⟩

/-- C1 counterexample: the variant channel-listing payload writes
`price_amount` as-is; at price `1.005` USD the written amount differs from
its quantized value, so this monetary field is not quantized before
serialization. -/
theorem C1_counterexample :
    jlookup "price_amount"
        ((generate_product_variant_listings_payload [cVariantListing]).headD []) =
      some (JValue.n ((201 : ℚ) / 200)) ∧
    quantize_price ((201 : ℚ) / 200) "USD" ≠ (201 : ℚ) / 200 := by
  refine ⟨rfl, ?_⟩
  have h2 : currency_fraction "USD" = 2 := rfl
  simp only [quantize_price, roundHalfUp, h2]
  norm_num

/-- C1 amended: monetary fields of the embedded payload builders are
quantized before serialization (the order/checkout shipping-method
`price_amount`, the payment `amount`, the checkout `discount_amount`) —
except the variant channel-listing `price_amount` and `cost_price_amount`
and the excluded-shipping-method `price`, which are written as-is. -/
theorem C1_amended :
    (∀ (vch : ProductVariantChannelListing)
        (rest : List ProductVariantChannelListing),
      jlookup "price_amount"
          ((generate_product_variant_listings_payload (vch :: rest)).headD []) =
        some (JValue.n vch.price_amount) ∧
      jlookup "cost_price_amount"
          ((generate_product_variant_listings_payload (vch :: rest)).headD []) =
        some (optNum vch.cost_price_amount)) ∧
    (∀ method : ShippingMethodData,
      jlookup "price" (_generate_payload_for_shipping_method method) =
        some (JValue.n method.price_amount)) ∧
    (∀ (name ty ch cur : String) (pa : ℚ)
        (ls : List ShippingMethodChannelListing),
      _generate_shipping_method_payload (some ⟨name, ty, ⟨ch, cur, pa⟩ :: ls⟩) ch =
        Except.ok (some
          [("name", JValue.s name), ("type", JValue.s ty),
           ("currency", JValue.s cur),
           ("price_amount", JValue.n (quantize_price pa cur))])) ∧
    (∀ (env : Env) (pd : PaymentData) (r : Option Requestor),
      jlookup "amount" (generate_payment_payload env pd r) =
        some (JValue.n (quantize_price pd.amount pd.currency))) ∧
    (∀ (env : Env) (c : Checkout) (r : Option Requestor),
      Except.map (jlookup "discount_amount") (generate_checkout_payload env c r) =
      Except.map
        (fun _ => some (JValue.n (quantize_price c.discount_amount c.currency)))
        (generate_checkout_payload env c r)) := by
  refine ⟨fun vch rest => ⟨rfl, rfl⟩, fun method => rfl, ?_, ?_, ?_⟩
  · intro name ty ch cur pa ls
    simp [_generate_shipping_method_payload, List.filter_cons]
  · intro env pd r
    cases hp : from_payment_app_id pd.gateway <;>
      simp [generate_payment_payload, hp, dictInsert, jlookup]
  · intro env c r
    cases hs : _generate_shipping_method_payload c.shipping_method c.channel.slug with
    | error e =>
      unfold generate_checkout_payload
      rw [hs]
      rfl
    | ok smd =>
      unfold generate_checkout_payload
      rw [hs]
      rfl

/-- C2 counterexample: the page payload carries no top-level `"meta"` key
(its envelope sits under `"data"`). -/
theorem C2_counterexample :
    jlookup "meta" (generate_page_payload cEnv cPage none) = none := rfl

/-- C2 amended: the checkout payload carries a top-level `meta` envelope
with keys `issued_at`, `version` and `issuing_principal`, but the page
payload stores the envelope under `"data"`, the payment payload carries
`meta` only when the gateway id parses as a payment-app id, and the
list-gateways and excluded-shipping-methods payloads have no top-level
`meta` at all. -/
theorem C2_amended :
    (∀ (env : Env) (page : Page) (r : Option Requestor),
      jlookup "meta" (generate_page_payload env page r) = none ∧
      jlookup "data" (generate_page_payload env page r) =
        some (JValue.obj (metaEnvelope env r))) ∧
    (∀ (env : Env) (pd : PaymentData) (r : Option Requestor),
      jlookup "meta" (generate_payment_payload env pd r) =
        (from_payment_app_id pd.gateway).map
          (fun _ => JValue.obj (metaEnvelope env r))) ∧
    (∀ (env : Env) (cur : Option String) (co : Option Checkout),
      Except.map (jlookup "meta") (generate_list_gateways_payload env cur co) =
      Except.map (fun _ => (none : Option JValue))
        (generate_list_gateways_payload env cur co)) ∧
    (∀ (env : Env) (o : Order) (ms : List ShippingMethodData),
      Except.map (jlookup "meta")
          (generate_excluded_shipping_methods_for_order_payload env o ms) =
      Except.map (fun _ => (none : Option JValue))
          (generate_excluded_shipping_methods_for_order_payload env o ms)) ∧
    (∀ (env : Env) (c : Checkout) (ms : List ShippingMethodData),
      Except.map (jlookup "meta")
          (generate_excluded_shipping_methods_for_checkout_payload env c ms) =
      Except.map (fun _ => (none : Option JValue))
          (generate_excluded_shipping_methods_for_checkout_payload env c ms)) ∧
    (∀ (env : Env) (c : Checkout) (r : Option Requestor),
      Except.map (jlookup "meta") (generate_checkout_payload env c r) =
      Except.map (fun _ => some (JValue.obj (metaEnvelope env r)))
        (generate_checkout_payload env c r)) ∧
    (∀ (env : Env) (r : Option Requestor),
      (metaEnvelope env r).map Prod.fst =
        ["issued_at", "version", "issuing_principal"]) := by
  refine ⟨fun env page r => ⟨rfl, rfl⟩, ?_, ?_, ?_, ?_, ?_, fun env r => rfl⟩
  · intro env pd r
    cases hp : from_payment_app_id pd.gateway <;>
      simp [generate_payment_payload, hp, dictInsert, jlookup]
  · intro env cur co
    cases co with
    | none => rfl
    | some c =>
      have hg : generate_list_gateways_payload env cur (some c) =
          (do
            let checkout_data ← generate_checkout_payload env c none
            Except.ok [("checkout", JValue.obj checkout_data),
              ("currency", optStr cur)]) := rfl
      rw [hg]
      cases generate_checkout_payload env c none with
      | error e => rfl
      | ok p => rfl
  · intro env o ms
    cases ho : generate_order_payload env o none true with
    | error e =>
      unfold generate_excluded_shipping_methods_for_order_payload
      rw [ho]
      rfl
    | ok od =>
      unfold generate_excluded_shipping_methods_for_order_payload
      rw [ho]
      rfl
  · intro env c ms
    cases hc : generate_checkout_payload env c none with
    | error e =>
      unfold generate_excluded_shipping_methods_for_checkout_payload
      rw [hc]
      rfl
    | ok cd =>
      unfold generate_excluded_shipping_methods_for_checkout_payload
      rw [hc]
      rfl
  · intro env c r
    cases hs : _generate_shipping_method_payload c.shipping_method c.channel.slug with
    | error e =>
      unfold generate_checkout_payload
      rw [hs]
      rfl
    | ok smd =>
      unfold generate_checkout_payload
      rw [hs]
      rfl

/-- C3, evaluated at the failing input and the degrading inputs: a
fulfillment whose lines have no stock and whose order's country has no
warehouse makes `generate_fulfillment_payload` raise (the unguarded
`warehouse.address`), while a checkout's missing shipping method, collection
point and warehouse, and an order's missing shipping method and collection
point, degrade to null fields with the payloads still produced. -/
theorem C3_missing_relations :
    generate_fulfillment_payload cEnv cFulfillmentNoStock none =
      Except.error "AttributeError: NoneType object has no attribute address" ∧
    Except.map (jlookup "shipping_method")
        (generate_checkout_payload cEnv cCheckoutBare none) =
      Except.ok (some JValue.null) ∧
    Except.map (jlookup "collection_point")
        (generate_checkout_payload cEnv cCheckoutBare none) =
      Except.ok (some JValue.null) ∧
    Except.map (jlookup "warehouse_address")
        (generate_checkout_payload cEnv cCheckoutBare none) =
      Except.ok (some JValue.null) ∧
    Except.map (jlookup "shipping_method")
        (generate_order_payload cEnv cOrderBare none true) =
      Except.ok (some JValue.null) ∧
    Except.map (jlookup "collection_point")
        (generate_order_payload cEnv cOrderBare none true) =
      Except.ok (some JValue.null) :=
  ⟨rfl, rfl, rfl, rfl, rfl, rfl⟩

end Saleor
